import Mathlib

/-!
Verification development for the osm2cr conversion pipeline
(crdesigner/map_conversion/osm2cr/converter_modules/converter.py).

The repository source under verification is the pipeline orchestrator
(step_collection_1/2/3, GraphScenario, load_from_file).  The collaborator
modules it imports (road_graph, intersection_merger, offsetter,
segment_clusters, lane_linker, mapillary, osm_parser, export) are part of
the repository but their sources are not available; wherever a property
depends on them they are modelled from the specification, and each such
definition carries a doc comment starting with "Modelled from the spec:".

Numbers are embedded as rationals; distance comparisons are carried out on
squared Euclidean distances so that every definition is executable.
-/

namespace CSDRail

/-- A 2D metric-plane coordinate (spec section 3: a single consistent 2D
metric plane is assumed). -/
structure Point where
  x : ℚ
  y : ℚ
  deriving DecidableEq, Repr

/-- A graph node: unique identifier and 2D coordinate (spec section 3). -/
structure Node where
  nid : ℕ
  coord : Point
  deriving DecidableEq, Repr

/-- A graph edge: identifier, endpoints (node ids), lane count, waypoint
polyline, and successor references established by link_edges
(spec section 3). -/
structure Edge where
  eid : ℕ
  n1 : ℕ
  n2 : ℕ
  laneCount : ℕ
  waypoints : List Point
  successors : List ℕ
  deriving DecidableEq, Repr

/-- A lane: identifier, the node ids its ends are nominally located at,
its explicit endpoint coordinates, and its centerline waypoints
(spec section 3). -/
structure Lane where
  lid : ℕ
  startNode : ℕ
  endNode : ℕ
  startPoint : Point
  endPoint : Point
  waypoints : List Point
  deriving DecidableEq, Repr

/-- A lane-link segment: a directed connector between an incoming and an
outgoing lane at one intersection node, with a cluster identifier
(spec section 3, LaneLinkSegment). -/
structure Segment where
  sid : ℕ
  node : ℕ
  startPoint : Point
  endPoint : Point
  cluster : ℕ
  deriving DecidableEq, Repr

/-- A point-located traffic-control record (traffic sign or light), with
the edge/node it has been assigned to, if any (spec section 4.5). -/
structure TrafficRecord where
  coord : Point
  assigned : Option ℕ
  deriving DecidableEq, Repr

/-- Per-node lane-link bookkeeping established by the lane linker:
incoming and outgoing edge ids of one node (spec section 4.2). -/
structure LaneLink where
  node : ℕ
  incoming : List ℕ
  outgoing : List ℕ
  deriving DecidableEq, Repr

/-- The data owned by one network layer: nodes, edges, derived lanes,
lane-link segments, annotations and lane links (spec section 3, Graph). -/
structure GraphData where
  nodes : List Node
  edges : List Edge
  lanes : List Lane
  segments : List Segment
  trafficSigns : List TrafficRecord
  trafficLights : List TrafficRecord
  laneLinks : List LaneLink
  deriving DecidableEq, Repr

/-- A road graph: the primary layer plus, for a SublayeredGraph, one fully
independent secondary layer.  A plain Graph has sublayer none; the python
isinstance(graph, SublayeredGraph) test corresponds to sublayer.isSome
(spec sections 3 and 9). -/
structure RGraph where
  main : GraphData
  sublayer : Option GraphData
  deriving DecidableEq, Repr

/-- The recognized configuration options (spec section 6).  The python
global osm_config is threaded explicitly. -/
structure Config where
  MAKE_CONTIGUOUS : Bool
  DELETE_SHORT_EDGES : Bool
  DELETE_INVALID_LANES : Bool
  INTERSECTION_DISTANCE : ℚ
  INTERSECTION_DISTANCE_SUBLAYER : ℚ
  INTERPOLATION_DISTANCE : ℚ
  INTERPOLATION_DISTANCE_INTERNAL : ℚ
  deriving DecidableEq, Repr

/-- Addition on the rationals, written so that it evaluates under kernel
reduction (the library's addition is irreducible); it equals the standard
addition by the bridge lemma qadd_eq below. -/
def qadd (a b : ℚ) : ℚ :=
  mkRat (a.num * b.den + b.num * a.den) (a.den * b.den)

/-- Kernel-computable subtraction on the rationals; equals the standard
subtraction (lemma qsub_eq). -/
def qsub (a b : ℚ) : ℚ :=
  mkRat (a.num * b.den - b.num * a.den) (a.den * b.den)

/-- Kernel-computable multiplication on the rationals; equals the
standard multiplication (lemma qmul_eq). -/
def qmul (a b : ℚ) : ℚ :=
  Rat.divInt (a.num * b.num) (a.den * b.den)

/-- Kernel-computable division on the rationals; equals the standard
division (lemma qdiv_eq). -/
def qdiv (a b : ℚ) : ℚ :=
  Rat.divInt (a.num * b.den) (a.den * b.num)

/-- Kernel-computable strict-order test on the rationals; equal to
deciding the standard order (lemma qltb_eq_decide). -/
def qltb (a b : ℚ) : Bool :=
  decide (a.num * (b.den : ℤ) < b.num * (a.den : ℤ))

/-- Kernel-computable sum of a list of rationals; equals the standard
list sum (lemma qsum_eq). -/
def qsum : List ℚ → ℚ
  | [] => 0
  | x :: xs => qadd x (qsum xs)

/-- Kernel-computable embedding of the naturals; equals the standard
cast (lemma qofNat_eq). -/
def qofNat (n : ℕ) : ℚ :=
  Rat.ofInt (Int.ofNat n)

/-- Squared Euclidean distance between two points. -/
def sqDist (p q : Point) : ℚ :=
  qadd (qmul (qsub p.x q.x) (qsub p.x q.x)) (qmul (qsub p.y q.y) (qsub p.y q.y))

/-- Whether two points are strictly within distance t of each other,
tested on squared distances. -/
def close (t : ℚ) (p q : Point) : Bool :=
  qltb (sqDist p q) (qmul t t)

/-- The coordinate of the first node carrying the given id, if any. -/
def nodeCoord (g : GraphData) (i : ℕ) : Option Point :=
  (g.nodes.find? (fun n => decide (n.nid = i))).map Node.coord

/-- Midpoint of two points. -/
def midpoint (p q : Point) : Point :=
  ⟨qdiv (qadd p.x q.x) 2, qdiv (qadd p.y q.y) 2⟩

/-- Modelled from the spec: missing module road_graph, Graph.make_contiguous.
One step of reachability expansion over the edge list. -/
def expandReach (es : List Edge) (s : List ℕ) : List ℕ :=
  (s ++ s.flatMap (fun i => es.filterMap (fun e =>
    if e.n1 = i then some e.n2 else if e.n2 = i then some e.n1 else none))).dedup

/-- Modelled from the spec: missing module road_graph, Graph.make_contiguous.
Discards every element of the graph not linked to the central node (modelled
as the first node of the node list); reachability is computed by iterating
one-step expansion as many times as there are nodes. -/
def make_contiguous (g : GraphData) : GraphData :=
  match g.nodes with
  | [] => g
  | c :: _ =>
    let r := (expandReach g.edges)^[g.nodes.length] [c.nid]
    { g with
      nodes := g.nodes.filter (fun n => decide (n.nid ∈ r)),
      edges := g.edges.filter (fun e => decide (e.n1 ∈ r ∧ e.n2 ∈ r)) }

/-- Modelled from the spec: missing module intersection_merger.  Adds one
node to the running cluster list, joining every cluster that contains a
node within the threshold (incremental connected components of the
proximity relation, spec section 4.1). -/
def addNodeToClusters (t : ℚ) (n : Node) (cs : List (List Node)) : List (List Node) :=
  let pr := cs.partition (fun c => c.any (fun m => close t n.coord m.coord))
  (n :: pr.1.flatten) :: pr.2

/-- Modelled from the spec: missing module intersection_merger.  The
clusters of nodes mutually reachable through chains of pairwise distances
below the threshold (spec section 4.1). -/
def proximityClusters (t : ℚ) (ns : List Node) : List (List Node) :=
  ns.foldr (addNodeToClusters t) []

/-- Centroid of a list of points (sum divided by length). -/
def centroid (ps : List Point) : Point :=
  ⟨qdiv (qsum (ps.map Point.x)) (qofNat ps.length),
   qdiv (qsum (ps.map Point.y)) (qofNat ps.length)⟩

/-- Modelled from the spec: missing module intersection_merger.  The
representative node of a cluster: the first member's id, located at the
cluster's centroid (spec section 4.1). -/
def clusterRep (c : List Node) : Node :=
  match c with
  | [] => ⟨0, ⟨0, 0⟩⟩
  | n :: _ => ⟨n.nid, centroid (c.map Node.coord)⟩

/-- Association list sending every member of every cluster to the id of
the cluster's representative. -/
def repAssoc (cs : List (List Node)) : List (ℕ × ℕ) :=
  (cs.map (fun c => c.map (fun m => (m.nid, (clusterRep c).nid)))).flatten

/-- First value bound to a key in an association list. -/
def assocFind (a : List (ℕ × ℕ)) (k : ℕ) : Option ℕ :=
  match a with
  | [] => none
  | p :: rest => if p.1 = k then some p.2 else assocFind rest k

/-- Modelled from the spec: missing module intersection_merger,
merge_close_intersections (spec section 4.1).  Replaces each proximity
cluster by one representative node at its centroid, re-points every
incident edge endpoint to the representative, and deletes the self-loop
edges produced by a merge (both endpoints collapsed together).  The python
call site passes no threshold; the module's internally configured
threshold is made an explicit parameter. -/
def merge_close_intersections (t : ℚ) (g : GraphData) : GraphData :=
  let cs := proximityClusters t g.nodes
  let m := repAssoc cs
  let remap := fun i => (assocFind m i).getD i
  { g with
    nodes := cs.map clusterRep,
    edges := g.edges.filterMap (fun e =>
      if remap e.n1 = remap e.n2 ∧ e.n1 ≠ e.n2 then none
      else some { e with n1 := remap e.n1, n2 := remap e.n2 }) }

/-- Modelled from the spec: missing module road_graph, Graph.link_edges
(spec section 4.2).  An edge's forward successors are the edges outgoing
from its end node. -/
def link_edges (g : GraphData) : GraphData :=
  { g with edges := g.edges.map (fun e =>
      { e with successors := (g.edges.filter (fun f => decide (f.n1 = e.n2))).map Edge.eid }) }

/-- Modelled from the spec: missing module lane_linker, link_graph
(spec section 4.2).  For each node, records the canonical partition of
incident edges into incoming and outgoing. -/
def link_graph (g : GraphData) : GraphData :=
  { g with laneLinks := g.nodes.map (fun n =>
      ⟨n.nid,
       (g.edges.filter (fun e => decide (e.n2 = n.nid))).map Edge.eid,
       (g.edges.filter (fun e => decide (e.n1 = n.nid))).map Edge.eid⟩) }

/-- Modelled from the spec: missing module road_graph, Graph.interpolate
(spec section 4.3).  One densification pass: a midpoint is inserted into
every consecutive pair further apart than the spacing; the original
endpoints are preserved exactly. -/
def densifyPts (d : ℚ) : List Point → List Point
  | [] => []
  | [p] => [p]
  | p :: q :: rest =>
    if qltb (qmul d d) (sqDist p q) then p :: midpoint p q :: densifyPts d (q :: rest)
    else p :: densifyPts d (q :: rest)

/-- Modelled from the spec: missing module road_graph, Graph.interpolate.
Densifies every edge's waypoints at the internal working spacing. -/
def interpolate (d : ℚ) (g : GraphData) : GraphData :=
  { g with edges := g.edges.map (fun e => { e with waypoints := densifyPts d e.waypoints }) }

/-- Cross product of the vectors o→a and o→b; zero iff the three points
are collinear. -/
def cross (o a b : Point) : ℚ :=
  qsub (qmul (qsub a.x o.x) (qsub b.y o.y)) (qmul (qsub a.y o.y) (qsub b.x o.x))

/-- Whether every point of the polyline is collinear with its two ends. -/
def straightPolyline (ps : List Point) : Bool :=
  match ps.head?, ps.getLast? with
  | some a, some b => ps.all (fun p => decide (cross a p b = 0))
  | _, _ => true

/-- Modelled from the spec: missing module offsetter, offset_graph
(source comment at converter.py line 55: lane segments are supposed to be
straight, straightening is done via offsets).  An edge whose polyline is
exactly straight is reduced to its two endpoints; bent edges are kept
unchanged (tolerance zero). -/
def offset_graph (g : GraphData) : GraphData :=
  { g with edges := g.edges.map (fun e =>
      if straightPolyline e.waypoints then
        match e.waypoints.head?, e.waypoints.getLast? with
        | some a, some b => { e with waypoints := [a, b] }
        | _, _ => e
      else e) }

/-- Modelled from the spec: missing module road_graph,
crop_waypoints_at_intersections.  Drops the leading waypoints strictly
within the threshold distance of the given node coordinate. -/
def cropEnd (t : ℚ) (c : Point) (ps : List Point) : List Point :=
  ps.dropWhile (fun p => close t p c)

/-- Modelled from the spec: missing module road_graph.  The waypoints of
an edge after cropping both ends at the coordinates of its two nodes
(spec section 4.4: each end is cropped separately). -/
def croppedWaypoints (t : ℚ) (g : GraphData) (e : Edge) : List Point :=
  let ps := e.waypoints
  let ps := match nodeCoord g e.n1 with
    | some c => cropEnd t c ps
    | none => ps
  match nodeCoord g e.n2 with
  | some c => (cropEnd t c ps.reverse).reverse
  | none => ps

/-- Squared length of the chord between the first and last point of a
polyline (zero for polylines with fewer than two points). -/
def sqChord (ps : List Point) : ℚ :=
  match ps.head?, ps.getLast? with
  | some a, some b => sqDist a b
  | _, _ => 0

/-- Modelled from the spec: the minimum viable edge length below which a
cropped edge becomes a deletion candidate (spec section 4.4; the exact
constant is not specified). -/
def cropMinLength : ℚ := 1

/-- Modelled from the spec: missing module road_graph.  A cropped edge is
a deletion candidate when fewer than two waypoints remain or its remaining
chord falls below the minimum viable length (spec section 4.4). -/
def isDeletionCandidate (t : ℚ) (g : GraphData) (e : Edge) : Bool :=
  let ps := croppedWaypoints t g e
  decide (ps.length < 2) || qltb (sqChord ps) (qmul cropMinLength cropMinLength)

/-- Modelled from the spec: missing module road_graph.  Cropping one edge:
its waypoints are replaced by the cropped polyline unless that would leave
fewer than two waypoints, in which case the edge is left uncorrupted
(spec section 4.4). -/
def cropEdge (t : ℚ) (g : GraphData) (e : Edge) : Edge :=
  let ps := croppedWaypoints t g e
  if ps.length < 2 then e else { e with waypoints := ps }

/-- Modelled from the spec: missing module road_graph,
Graph.crop_waypoints_at_intersections (spec section 4.4).  Crops every
edge at both of its nodes and returns, alongside the cropped graph, the
ids of the edges flagged as deletion candidates; deletion itself is left
to the caller. -/
def crop_waypoints_at_intersections (t : ℚ) (g : GraphData) : GraphData × List ℕ :=
  ({ g with edges := g.edges.map (cropEdge t g) },
   (g.edges.filter (isDeletionCandidate t g)).map Edge.eid)

/-- Modelled from the spec: missing module road_graph, Graph.delete_edges.
Removes the edges whose ids are listed. -/
def delete_edges (es : List ℕ) (g : GraphData) : GraphData :=
  { g with edges := g.edges.filter (fun e => decide (e.eid ∉ es)) }

/-- Modelled from the spec: missing module mapillary and its external
annotation source (spec section 6, annotation input).  The external
record set is not part of the repository; it is modelled as a fixed,
empty record set. -/
def mapillaryRecords : List Point := []

/-- Modelled from the spec: missing module mapillary,
add_mapillary_signs_to_graph.  Appends the external sign records, not yet
assigned, to the graph. -/
def add_mapillary_signs_to_graph (g : GraphData) : GraphData :=
  { g with trafficSigns := g.trafficSigns ++ mapillaryRecords.map (fun p => ⟨p, none⟩) }

/-- Modelled from the spec: the maximum-distance cutoff of the annotation
applier, as a squared distance (spec section 4.5; the exact constant is
not specified). -/
def maxAssignSqDist : ℚ := 100

/-- Smallest element of a list of rationals under the kernel-computable
order test. -/
def qminList (l : List ℚ) : Option ℚ :=
  l.foldl (fun acc d =>
    match acc with
    | none => some d
    | some m => if qltb d m then some d else some m) none

/-- Minimum squared distance from a point to an edge's waypoints. -/
def edgeSqDistTo (e : Edge) (p : Point) : Option ℚ :=
  qminList (e.waypoints.map (sqDist p))

/-- Modelled from the spec: missing module road_graph (spec section 4.5).
The nearest edge to a point, provided it lies within the cutoff; records
beyond the cutoff are dropped rather than matched incorrectly. -/
def nearestEdge (g : GraphData) (p : Point) : Option ℕ :=
  let best := g.edges.foldl (fun acc e =>
    match edgeSqDistTo e p with
    | none => acc
    | some d =>
      match acc with
      | none => some (e.eid, d)
      | some (i, d0) => if qltb d d0 then some (e.eid, d) else some (i, d0)) none
  match best with
  | some (i, d) => if qltb d maxAssignSqDist then some i else none
  | none => none

/-- Modelled from the spec: missing module road_graph (spec section 4.5).
The nearest node to a point within the cutoff. -/
def nearestNode (g : GraphData) (p : Point) : Option ℕ :=
  let best := g.nodes.foldl (fun acc n =>
    let d := sqDist p n.coord
    match acc with
    | none => some (n.nid, d)
    | some (i, d0) => if qltb d d0 then some (n.nid, d) else some (i, d0)) none
  match best with
  | some (i, d) => if qltb d maxAssignSqDist then some i else none
  | none => none

/-- Modelled from the spec: missing module road_graph,
Graph.apply_traffic_signs (spec section 4.5).  Assigns every unassigned
sign record to its nearest edge within the cutoff. -/
def apply_traffic_signs (g : GraphData) : GraphData :=
  { g with trafficSigns := g.trafficSigns.map (fun r =>
      match r.assigned with
      | some _ => r
      | none => { r with assigned := nearestEdge g r.coord }) }

/-- Modelled from the spec: missing module road_graph,
Graph.apply_traffic_lights (spec section 4.5).  Assigns every unassigned
light record to its nearest node within the cutoff. -/
def apply_traffic_lights (g : GraphData) : GraphData :=
  { g with trafficLights := g.trafficLights.map (fun r =>
      match r.assigned with
      | some _ => r
      | none => { r with assigned := nearestNode g r.coord }) }

/-- Modelled from the spec: missing module road_graph,
Graph.create_lane_waypoints (spec section 4.6 item 1).  Creates one lane
per lane index of every edge, with the edge's polyline as centerline. -/
def create_lane_waypoints (g : GraphData) : GraphData :=
  { g with lanes := (g.edges.map (fun e =>
      (List.range e.laneCount).map (fun k =>
        ⟨e.eid * 100 + k, e.n1, e.n2,
         e.waypoints.head?.getD ⟨0, 0⟩, e.waypoints.getLast?.getD ⟨0, 0⟩,
         e.waypoints⟩))).flatten }

/-- Modelled from the spec: missing module road_graph,
Graph.create_lane_link_segments (spec section 4.6 item 2).  At every node,
every (incoming lane, outgoing lane) pair yields one connector segment
from the incoming lane's end point to the outgoing lane's start point; a
pair with coincident endpoints is skipped, not fabricated. -/
def create_lane_link_segments (g : GraphData) : GraphData :=
  { g with segments := g.segments ++ (g.nodes.map (fun n =>
      ((g.lanes.filter (fun l => decide (l.endNode = n.nid))).map (fun li =>
        ((g.lanes.filter (fun l => decide (l.startNode = n.nid))).filterMap (fun lo =>
          if li.endPoint = lo.startPoint then none
          else some (⟨li.lid * 1000 + lo.lid, n.nid, li.endPoint, lo.startPoint, 0⟩ : Segment))))).flatten)).flatten }

/-- Direction vector of a segment. -/
def segDir (s : Segment) : Point :=
  ⟨s.endPoint.x - s.startPoint.x, s.endPoint.y - s.startPoint.y⟩

/-- Modelled from the spec: missing module segment_clusters,
cluster_segments (spec section 4.7).  Segments at the same node with equal
direction vectors are judged geometrically equivalent; each segment's
cluster id is the id of the first equivalent segment. -/
def cluster_segments (g : GraphData) : GraphData :=
  { g with segments := g.segments.map (fun s =>
      { s with cluster :=
          ((g.segments.find? (fun u => decide (u.node = s.node ∧ segDir u = segDir s))).map
            Segment.sid).getD s.sid }) }

/-- Modelled from the spec: missing module road_graph,
Graph.create_lane_bounds (spec section 4.6 items 3 and 4).  Resamples
every lane's geometry at the configured output spacing factor and keeps
the lane's explicit endpoints in step with its waypoints. -/
def create_lane_bounds (r : ℚ) (g : GraphData) : GraphData :=
  { g with lanes := g.lanes.map (fun l =>
      let w := densifyPts r l.waypoints
      { l with
        waypoints := w,
        startPoint := w.head?.getD l.startPoint,
        endPoint := w.getLast?.getD l.endPoint }) }

/-- Modelled from the spec: missing module road_graph,
Graph.delete_invalid_lanes (spec section 4.8).  Removes every lane whose
centerline has fewer than two points. -/
def delete_invalid_lanes (g : GraphData) : GraphData :=
  { g with lanes := g.lanes.filter (fun l => decide (2 ≤ l.waypoints.length)) }

/-- Snap a coordinate to the coordinate of the node carrying the given id,
when that node exists. -/
def snapToNode (g : GraphData) (i : ℕ) (p : Point) : Point :=
  match nodeCoord g i with
  | some c => c
  | none => p

/-- Modelled from the spec: missing module road_graph,
Graph.correct_start_end_points (spec section 4.8).  For every node, every
lane and segment endpoint nominally located at that node is snapped to the
node's coordinate. -/
def correct_start_end_points (g : GraphData) : GraphData :=
  { g with
    lanes := g.lanes.map (fun l =>
      { l with
        startPoint := snapToNode g l.startNode l.startPoint,
        endPoint := snapToNode g l.endNode l.endPoint }),
    segments := g.segments.map (fun s =>
      { s with
        startPoint := snapToNode g s.node s.startPoint,
        endPoint := snapToNode g s.node s.endPoint }) }

/-- All lane and segment endpoint coordinates nominally located at the
node with the given id. -/
def endpointsAt (g : GraphData) (i : ℕ) : List Point :=
  (g.lanes.filterMap (fun l => if l.startNode = i then some l.startPoint else none)) ++
  (g.lanes.filterMap (fun l => if l.endNode = i then some l.endPoint else none)) ++
  (g.segments.filterMap (fun s => if s.node = i then some s.startPoint else none)) ++
  (g.segments.filterMap (fun s => if s.node = i then some s.endPoint else none))

/-- The two layers of a SublayeredGraph. -/
inductive Layer where
  | primary
  | sublayer
  deriving DecidableEq, Repr

/-- One collaborator invocation performed by the pipeline orchestrator:
which operation, on which layer, and with which call-site argument.  The
events embed the call structure of converter.py. -/
inductive Event where
  | make_contiguous (l : Layer)
  | merge_close_intersections (l : Layer) (threshold : ℚ)
  | link_edges (l : Layer)
  | link_graph (l : Layer)
  | interpolate (l : Layer) (spacing : ℚ)
  | offset_graph (l : Layer)
  | crop_waypoints_at_intersections (l : Layer) (threshold : ℚ)
  | delete_edges (l : Layer) (candidates : List ℕ)
  | add_mapillary_signs (l : Layer)
  | apply_traffic_signs (l : Layer)
  | apply_traffic_lights (l : Layer)
  | create_lane_waypoints (l : Layer)
  | create_lane_link_segments (l : Layer)
  | cluster_segments (l : Layer)
  | create_lane_bounds (l : Layer) (factor : ℚ)
  | delete_invalid_lanes (l : Layer)
  | correct_start_end_points (l : Layer)
  deriving DecidableEq, Repr

/-- The layer an event acts on. -/
def eventLayer : Event → Layer
  | .make_contiguous l => l
  | .merge_close_intersections l _ => l
  | .link_edges l => l
  | .link_graph l => l
  | .interpolate l _ => l
  | .offset_graph l => l
  | .crop_waypoints_at_intersections l _ => l
  | .delete_edges l _ => l
  | .add_mapillary_signs l => l
  | .apply_traffic_signs l => l
  | .apply_traffic_lights l => l
  | .create_lane_waypoints l => l
  | .create_lane_link_segments l => l
  | .cluster_segments l => l
  | .create_lane_bounds l _ => l
  | .delete_invalid_lanes l => l
  | .correct_start_end_points l => l

/-- The operations that converter.py ever applies to the sublayer:
intersection merging, lane linking, offsetting, cropping, short-edge
deletion, segment clustering and invalid-lane deletion. -/
def sublayerAllowed : Event → Bool
  | .merge_close_intersections _ _ => true
  | .link_graph _ => true
  | .offset_graph _ => true
  | .crop_waypoints_at_intersections _ _ => true
  | .delete_edges _ _ => true
  | .cluster_segments _ => true
  | .delete_invalid_lanes _ => true
  | _ => false

/-- Modelled from the spec: the merger module (missing from the sources)
reads its threshold from the configuration, independently per layer
(spec sections 4.1 and 6: INTERSECTION_DISTANCE and
INTERSECTION_DISTANCE_SUBLAYER are the merge/crop thresholds of the
primary and sublayer graphs). -/
def mergeThreshold (cfg : Config) : Layer → ℚ
  | .primary => cfg.INTERSECTION_DISTANCE
  | .sublayer => cfg.INTERSECTION_DISTANCE_SUBLAYER

/-- Applies an operation to the primary layer of a graph (a python method
call on the graph object itself). -/
def mapMain (f : GraphData → GraphData) (g : RGraph) : RGraph :=
  { g with main := f g.main }

/-- The pattern "if isinstance(graph, SublayeredGraph): op(graph.sublayer_graph)"
of converter.py: the operation runs on the sublayer when one is present,
and the given invocation event is recorded. -/
def subApply (f : GraphData → GraphData) (ev : Event) (g : RGraph) : RGraph × List Event :=
  match g.sublayer with
  | some s => ({ g with sublayer := some (f s) }, [ev])
  | none => (g, [])

/-- A structural-input error: fail-fast with the offending identifier
(spec section 7, structural errors). -/
inductive ParseErr where
  | malformed (offendingId : ℕ)
  deriving DecidableEq, Repr

/-- An OSM source file, identified with its parse outcome: the core
receives an already-constructed initial graph and does not parse
(spec section 6). -/
structure OsmFile where
  parsed : Except ParseErr RGraph
  deriving Repr

/-- Modelled from the spec: missing module osm_parser, create_graph.
Produces the initial graph of a file, or fails fast on malformed input
(spec sections 6 and 7). -/
def create_graph (file : OsmFile) : Except ParseErr RGraph :=
  file.parsed

/-- The body of step_collection_1 (converter.py lines 27 to 40) after
graph creation: optional make_contiguous, intersection merging on the
primary layer and, for a SublayeredGraph, on the sublayer, then edge
linking.  Returns the graph together with the invocation trace. -/
def step_collection_1_graph (cfg : Config) (graph : RGraph) : RGraph × List Event :=
  let pc : RGraph × List Event :=
    if cfg.MAKE_CONTIGUOUS then
      (mapMain make_contiguous graph, [Event.make_contiguous Layer.primary])
    else (graph, [])
  let g2 := mapMain (merge_close_intersections (mergeThreshold cfg Layer.primary)) pc.1
  let ps := subApply (merge_close_intersections (mergeThreshold cfg Layer.sublayer))
    (Event.merge_close_intersections Layer.sublayer (mergeThreshold cfg Layer.sublayer)) g2
  let g3 := mapMain link_edges ps.1
  (g3, pc.2 ++
    [Event.merge_close_intersections Layer.primary (mergeThreshold cfg Layer.primary)] ++
    ps.2 ++ [Event.link_edges Layer.primary])

/-- step_collection_1 (converter.py lines 24 to 40): graph creation from
the file followed by the first stage group. -/
def step_collection_1 (cfg : Config) (file : OsmFile) : Except ParseErr (RGraph × List Event) :=
  match create_graph file with
  | .error e => .error e
  | .ok graph => .ok (step_collection_1_graph cfg graph)

/-- step_collection_2 (converter.py lines 43 to 79): lane linking,
interpolation, offsetting, cropping at intersections (the deletion of the
primary graph's short-edge candidates, lines 63 to 65, is commented out in
the source and therefore absent here; the sublayer's candidates are
deleted when DELETE_SHORT_EDGES is set), annotation application and lane
waypoint creation. -/
def step_collection_2 (cfg : Config) (graph : RGraph) : RGraph × List Event :=
  let g1 := mapMain link_graph graph
  let ps1 := subApply link_graph (Event.link_graph Layer.sublayer) g1
  let g2 := mapMain (interpolate cfg.INTERPOLATION_DISTANCE_INTERNAL) ps1.1
  let g3 := mapMain offset_graph g2
  let ps2 := subApply offset_graph (Event.offset_graph Layer.sublayer) g3
  let pc := crop_waypoints_at_intersections cfg.INTERSECTION_DISTANCE ps2.1.main
  let g4 := { ps2.1 with main := pc.1 }
  let ps3 : RGraph × List Event :=
    match g4.sublayer with
    | some s =>
      let sc := crop_waypoints_at_intersections cfg.INTERSECTION_DISTANCE_SUBLAYER s
      if cfg.DELETE_SHORT_EDGES then
        ({ g4 with sublayer := some (delete_edges sc.2 sc.1) },
         [Event.crop_waypoints_at_intersections Layer.sublayer cfg.INTERSECTION_DISTANCE_SUBLAYER,
          Event.delete_edges Layer.sublayer sc.2])
      else
        ({ g4 with sublayer := some sc.1 },
         [Event.crop_waypoints_at_intersections Layer.sublayer cfg.INTERSECTION_DISTANCE_SUBLAYER])
    | none => (g4, [])
  let g5 := mapMain add_mapillary_signs_to_graph ps3.1
  let g6 := mapMain apply_traffic_signs g5
  let g7 := mapMain apply_traffic_lights g6
  let g8 := mapMain create_lane_waypoints g7
  (g8, [Event.link_graph Layer.primary] ++ ps1.2 ++
       [Event.interpolate Layer.primary cfg.INTERPOLATION_DISTANCE_INTERNAL,
        Event.offset_graph Layer.primary] ++ ps2.2 ++
       [Event.crop_waypoints_at_intersections Layer.primary cfg.INTERSECTION_DISTANCE] ++
       ps3.2 ++
       [Event.add_mapillary_signs Layer.primary, Event.apply_traffic_signs Layer.primary,
        Event.apply_traffic_lights Layer.primary, Event.create_lane_waypoints Layer.primary])

/-- step_collection_3 (converter.py lines 82 to 103): lane link segment
creation, segment clustering (both layers), lane bound creation at the
configured spacing quotient, optional invalid-lane deletion (both layers)
and the final start/end point correction on the primary graph.  The
unguarded division of line 90 is embedded as the total qdiv, which
returns 0 where the python division raises ZeroDivisionError
(INTERPOLATION_DISTANCE = 0); on every configuration with a nonzero
spacing the two agree. -/
def step_collection_3 (cfg : Config) (graph : RGraph) : RGraph × List Event :=
  let g1 := mapMain create_lane_link_segments graph
  let g2 := mapMain cluster_segments g1
  let ps1 := subApply cluster_segments (Event.cluster_segments Layer.sublayer) g2
  let g3 := mapMain
    (create_lane_bounds (qdiv cfg.INTERPOLATION_DISTANCE_INTERNAL cfg.INTERPOLATION_DISTANCE)) ps1.1
  let pd : RGraph × List Event :=
    if cfg.DELETE_INVALID_LANES then
      (mapMain delete_invalid_lanes g3, [Event.delete_invalid_lanes Layer.primary])
    else (g3, [])
  let ps2 : RGraph × List Event :=
    match pd.1.sublayer with
    | some s =>
      if cfg.DELETE_INVALID_LANES then
        ({ pd.1 with sublayer := some (delete_invalid_lanes s) },
         [Event.delete_invalid_lanes Layer.sublayer])
      else (pd.1, [])
    | none => (pd.1, [])
  let g4 := mapMain correct_start_end_points ps2.1
  (g4, [Event.create_lane_link_segments Layer.primary, Event.cluster_segments Layer.primary] ++
       ps1.2 ++
       [Event.create_lane_bounds Layer.primary
         (qdiv cfg.INTERPOLATION_DISTANCE_INTERNAL cfg.INTERPOLATION_DISTANCE)] ++
       pd.2 ++ ps2.2 ++ [Event.correct_start_end_points Layer.primary])

/-- A road network scenario as built by GraphScenario.__init__: the graph
resulting from the three stage groups. -/
structure GraphScenario where
  graph : RGraph
  deriving DecidableEq, Repr

/-- The three stage groups run in sequence on an already-created graph,
with the concatenated invocation trace. -/
def pipelineResult (cfg : Config) (graph : RGraph) : RGraph × List Event :=
  let p1 := step_collection_1_graph cfg graph
  let p2 := step_collection_2 cfg p1.1
  let p3 := step_collection_3 cfg p2.1
  (p3.1, p1.2 ++ p2.2 ++ p3.2)

/-- GraphScenario.__init__ (converter.py lines 113 to 130): the file is
converted through step_collection_1, step_collection_2 and
step_collection_3 and the result stored as the scenario's graph. -/
def GraphScenario_init (cfg : Config) (file : OsmFile) :
    Except ParseErr (GraphScenario × List Event) :=
  match step_collection_1 cfg file with
  | .error e => .error e
  | .ok p1 =>
    let p2 := step_collection_2 cfg p1.1
    let p3 := step_collection_3 cfg p2.1
    .ok (⟨p3.1⟩, p1.2 ++ p2.2 ++ p3.2)

/-- What the first stage group does to the primary layer, written as a
plain function composition (used to state layer decomposition). -/
def step1Main (cfg : Config) (gd : GraphData) : GraphData :=
  link_edges (merge_close_intersections (mergeThreshold cfg Layer.primary)
    (if cfg.MAKE_CONTIGUOUS then make_contiguous gd else gd))

/-- What the first stage group does to the sublayer. -/
def step1Sub (cfg : Config) (sd : GraphData) : GraphData :=
  merge_close_intersections (mergeThreshold cfg Layer.sublayer) sd

/-- What the second stage group does to the primary layer. -/
def step2Main (cfg : Config) (gd : GraphData) : GraphData :=
  create_lane_waypoints (apply_traffic_lights (apply_traffic_signs
    (add_mapillary_signs_to_graph
      (crop_waypoints_at_intersections cfg.INTERSECTION_DISTANCE
        (offset_graph (interpolate cfg.INTERPOLATION_DISTANCE_INTERNAL (link_graph gd)))).1)))

/-- The sublayer's state and deletion candidates at the point of the
second stage group's sublayer crop. -/
def step2SubCropped (cfg : Config) (sd : GraphData) : GraphData × List ℕ :=
  crop_waypoints_at_intersections cfg.INTERSECTION_DISTANCE_SUBLAYER
    (offset_graph (link_graph sd))

/-- What the second stage group does to the sublayer: lane linking,
offsetting, cropping, and candidate deletion when DELETE_SHORT_EDGES is
set. -/
def step2Sub (cfg : Config) (sd : GraphData) : GraphData :=
  if cfg.DELETE_SHORT_EDGES then
    delete_edges (step2SubCropped cfg sd).2 (step2SubCropped cfg sd).1
  else (step2SubCropped cfg sd).1

/-- What the third stage group does to the primary layer.  Like
step_collection_3 it embeds line 90's unguarded division as the total
qdiv (0 at a zero divisor, where the python division raises). -/
def step3Main (cfg : Config) (gd : GraphData) : GraphData :=
  correct_start_end_points
    (if cfg.DELETE_INVALID_LANES then
      delete_invalid_lanes
        (create_lane_bounds (qdiv cfg.INTERPOLATION_DISTANCE_INTERNAL cfg.INTERPOLATION_DISTANCE)
          (cluster_segments (create_lane_link_segments gd)))
     else
      create_lane_bounds (qdiv cfg.INTERPOLATION_DISTANCE_INTERNAL cfg.INTERPOLATION_DISTANCE)
        (cluster_segments (create_lane_link_segments gd)))

/-- What the third stage group does to the sublayer. -/
def step3Sub (cfg : Config) (sd : GraphData) : GraphData :=
  if cfg.DELETE_INVALID_LANES then delete_invalid_lanes (cluster_segments sd)
  else cluster_segments sd

/-- The whole pipeline's effect on the primary layer alone. -/
def mainPipeline (cfg : Config) (gd : GraphData) : GraphData :=
  step3Main cfg (step2Main cfg (step1Main cfg gd))

/-- The whole pipeline's effect on the sublayer alone. -/
def sublayerPipeline (cfg : Config) (sd : GraphData) : GraphData :=
  step3Sub cfg (step2Sub cfg (step1Sub cfg sd))

/-- The merge events of a trace, with their thresholds. -/
def mergeEvents (tr : List Event) : List (Layer × ℚ) :=
  tr.filterMap (fun ev =>
    match ev with
    | .merge_close_intersections l t => some (l, t)
    | _ => none)

/-- The crop events of a trace, with their thresholds. -/
def cropEvents (tr : List Event) : List (Layer × ℚ) :=
  tr.filterMap (fun ev =>
    match ev with
    | .crop_waypoints_at_intersections l t => some (l, t)
    | _ => none)

/-- The invocation of the external exporter performed by save_as_cr:
either with an explicit filename or with the graph alone. -/
inductive ExportCall where
  | withFilename (g : RGraph) (filename : String)
  | toDefault (g : RGraph)
  deriving DecidableEq, Repr

/-- GraphScenario.save_as_cr (converter.py lines 146 to 156): when the
filename is not None the exporter is invoked with graph and filename;
otherwise it is invoked with the graph alone. -/
def save_as_cr (s : GraphScenario) (filename : Option String) : ExportCall :=
  match filename with
  | some f => ExportCall.withFilename s.graph f
  | none => ExportCall.toDefault s.graph

/-- The interpreter and file-system state touched by snapshot
persistence: the recursion limit set through sys.setrecursionlimit and
the written files (filename to binary blob, most recent write first). -/
structure World where
  recursionLimit : ℕ
  files : List (String × ℕ)
  deriving DecidableEq, Repr

/-- sys.setrecursionlimit. -/
def setrecursionlimit (n : ℕ) (w : World) : World :=
  { w with recursionLimit := n }

/-- Writing a binary blob to a file. -/
def writeBlob (filename : String) (b : ℕ) (w : World) : World :=
  { w with files := (filename, b) :: w.files }

/-- Point is encodable through its pair of coordinates. -/
def pointEquivProd : Point ≃ ℚ × ℚ where
  toFun p := (p.x, p.y)
  invFun q := ⟨q.1, q.2⟩
  left_inv := fun _ => rfl
  right_inv := fun _ => rfl

instance : Encodable Point := Encodable.ofEquiv (ℚ × ℚ) pointEquivProd

/-- Node is encodable through its fields. -/
def nodeEquivProd : Node ≃ ℕ × Point where
  toFun n := (n.nid, n.coord)
  invFun q := ⟨q.1, q.2⟩
  left_inv := fun _ => rfl
  right_inv := fun _ => rfl

instance : Encodable Node := Encodable.ofEquiv (ℕ × Point) nodeEquivProd

/-- Edge is encodable through its fields. -/
def edgeEquivProd : Edge ≃ ℕ × ℕ × ℕ × ℕ × List Point × List ℕ where
  toFun e := (e.eid, e.n1, e.n2, e.laneCount, e.waypoints, e.successors)
  invFun q := ⟨q.1, q.2.1, q.2.2.1, q.2.2.2.1, q.2.2.2.2.1, q.2.2.2.2.2⟩
  left_inv := fun _ => rfl
  right_inv := fun _ => rfl

instance : Encodable Edge :=
  Encodable.ofEquiv (ℕ × ℕ × ℕ × ℕ × List Point × List ℕ) edgeEquivProd

/-- Lane is encodable through its fields. -/
def laneEquivProd : Lane ≃ ℕ × ℕ × ℕ × Point × Point × List Point where
  toFun l := (l.lid, l.startNode, l.endNode, l.startPoint, l.endPoint, l.waypoints)
  invFun q := ⟨q.1, q.2.1, q.2.2.1, q.2.2.2.1, q.2.2.2.2.1, q.2.2.2.2.2⟩
  left_inv := fun _ => rfl
  right_inv := fun _ => rfl

instance : Encodable Lane :=
  Encodable.ofEquiv (ℕ × ℕ × ℕ × Point × Point × List Point) laneEquivProd

/-- Segment is encodable through its fields. -/
def segmentEquivProd : Segment ≃ ℕ × ℕ × Point × Point × ℕ where
  toFun s := (s.sid, s.node, s.startPoint, s.endPoint, s.cluster)
  invFun q := ⟨q.1, q.2.1, q.2.2.1, q.2.2.2.1, q.2.2.2.2⟩
  left_inv := fun _ => rfl
  right_inv := fun _ => rfl

instance : Encodable Segment :=
  Encodable.ofEquiv (ℕ × ℕ × Point × Point × ℕ) segmentEquivProd

/-- TrafficRecord is encodable through its fields. -/
def trafficRecordEquivProd : TrafficRecord ≃ Point × Option ℕ where
  toFun r := (r.coord, r.assigned)
  invFun q := ⟨q.1, q.2⟩
  left_inv := fun _ => rfl
  right_inv := fun _ => rfl

instance : Encodable TrafficRecord :=
  Encodable.ofEquiv (Point × Option ℕ) trafficRecordEquivProd

/-- LaneLink is encodable through its fields. -/
def laneLinkEquivProd : LaneLink ≃ ℕ × List ℕ × List ℕ where
  toFun a := (a.node, a.incoming, a.outgoing)
  invFun q := ⟨q.1, q.2.1, q.2.2⟩
  left_inv := fun _ => rfl
  right_inv := fun _ => rfl

instance : Encodable LaneLink :=
  Encodable.ofEquiv (ℕ × List ℕ × List ℕ) laneLinkEquivProd

/-- GraphData is encodable through its component lists. -/
def graphDataEquivProd : GraphData ≃
    List Node × List Edge × List Lane × List Segment ×
    List TrafficRecord × List TrafficRecord × List LaneLink where
  toFun g := (g.nodes, g.edges, g.lanes, g.segments, g.trafficSigns, g.trafficLights, g.laneLinks)
  invFun q := ⟨q.1, q.2.1, q.2.2.1, q.2.2.2.1, q.2.2.2.2.1, q.2.2.2.2.2.1, q.2.2.2.2.2.2⟩
  left_inv := fun _ => rfl
  right_inv := fun _ => rfl

instance : Encodable GraphData :=
  Encodable.ofEquiv
    (List Node × List Edge × List Lane × List Segment ×
      List TrafficRecord × List TrafficRecord × List LaneLink) graphDataEquivProd

/-- RGraph is encodable through its two layers. -/
def rgraphEquivProd : RGraph ≃ GraphData × Option GraphData where
  toFun g := (g.main, g.sublayer)
  invFun q := ⟨q.1, q.2⟩
  left_inv := fun _ => rfl
  right_inv := fun _ => rfl

instance : Encodable RGraph := Encodable.ofEquiv (GraphData × Option GraphData) rgraphEquivProd

/-- GraphScenario is encodable through its graph. -/
def graphScenarioEquiv : GraphScenario ≃ RGraph where
  toFun s := s.graph
  invFun g := ⟨g⟩
  left_inv := fun _ => rfl
  right_inv := fun _ => rfl

instance : Encodable GraphScenario := Encodable.ofEquiv RGraph graphScenarioEquiv

/-- Modelled from the spec: pickle.dump of the external pickle module,
an opaque whole-object serialization of the scenario into a binary blob
(spec section 6, snapshot persistence).  Modelled as an injective
encoding into a natural number. -/
def pickle_dump (s : GraphScenario) : ℕ :=
  Encodable.encode s

/-- Modelled from the spec: pickle.load of the external pickle module,
reconstructing a scenario from a blob without validation; blobs that do
not arise from a dump may decode to none. -/
def pickle_load (b : ℕ) : Option GraphScenario :=
  Encodable.decode b

/-- The state right after sys.setrecursionlimit(10000) inside
save_to_file: the world in which pickle.dump runs. -/
def save_to_file_dumpWorld (w : World) : World :=
  setrecursionlimit 10000 w

/-- GraphScenario.save_to_file (converter.py lines 158 to 169): the
recursion limit is set to 10000, the whole scenario is pickled into the
named file, and the recursion limit is then set to the constant 1000.
The scenario itself is returned unchanged. -/
def save_to_file (s : GraphScenario) (filename : String) (w : World) : GraphScenario × World :=
  let w1 := save_to_file_dumpWorld w
  let w2 := writeBlob filename (pickle_dump s) w1
  (s, setrecursionlimit 1000 w2)

/-- The blob most recently written to a file name. -/
def findBlob : List (String × ℕ) → String → Option ℕ
  | [], _ => none
  | p :: rest, f => if p.1 = f then some p.2 else findBlob rest f

/-- load_from_file (converter.py lines 172 to 184): reads the file's blob
and reconstructs the stored scenario from it. -/
def load_from_file (filename : String) (w : World) : Option GraphScenario :=
  (findBlob w.files filename).bind pickle_load

/-- The empty plain graph, used as a concrete conversion input. -/
def emptyGraphData : GraphData := ⟨[], [], [], [], [], [], []⟩

/-- A concrete OSM file that parses to an empty plain graph. -/
def fileC6 : OsmFile := ⟨Except.ok ⟨emptyGraphData, none⟩⟩

/-- A concrete configuration. -/
def cfgC6 : Config := ⟨false, false, false, 1, 1, 1, 1⟩

/-- A concrete three-node graph on which intersection merging is not
idempotent at threshold 40: the first two nodes form one proximity
cluster (distance 38), the third is at distance sqrt 1657 > 40 from both;
the two cluster centroids then lie at distance 36 < 40, so a second merge
still merges. -/
def gC3 : GraphData :=
  ⟨[⟨1, ⟨0, 0⟩⟩, ⟨2, ⟨0, 38⟩⟩, ⟨3, ⟨36, 19⟩⟩], [], [], [], [], [], []⟩

/-- A concrete two-node graph whose nodes are farther apart than
threshold 1. -/
def gC3W : GraphData :=
  ⟨[⟨1, ⟨0, 0⟩⟩, ⟨2, ⟨10, 0⟩⟩], [], [], [], [], [], []⟩

/-- A concrete configuration with DELETE_SHORT_EDGES set. -/
def cfgC2 : Config := ⟨false, true, false, 10, 10, 100, 100⟩

/-- A concrete plain graph with one edge of length 1 between two nodes:
with intersection distance 10 the whole polyline lies within the crop
threshold of both nodes, so the edge is a deletion candidate. -/
def gC2 : RGraph :=
  ⟨⟨[⟨1, ⟨0, 0⟩⟩, ⟨2, ⟨0, 1⟩⟩],
    [⟨5, 1, 2, 1, [⟨0, 0⟩, ⟨0, 1⟩], []⟩],
    [], [], [], [], []⟩, none⟩

/-- A concrete configuration in which every threshold and spacing is the
non-positive value minus one. -/
def cfgC5 : Config := ⟨false, false, false, -1, -1, -1, -1⟩

/-- A concrete plain graph with one node and one lane whose endpoints sit
away from the node they are nominally located at. -/
def gC5 : RGraph :=
  ⟨⟨[⟨1, ⟨0, 0⟩⟩], [],
    [⟨7, 1, 1, ⟨5, 5⟩, ⟨6, 6⟩, [⟨5, 5⟩, ⟨6, 6⟩]⟩],
    [], [], [], []⟩, none⟩

/-- A concrete SublayeredGraph: an empty primary layer with an empty
sublayer attached. -/
def gC8 : RGraph := ⟨emptyGraphData, some emptyGraphData⟩

/-- A concrete plain graph with one node and one self-loop lane whose
endpoints are away from the node's coordinate. -/
def gC1 : RGraph :=
  ⟨⟨[⟨1, ⟨0, 0⟩⟩], [],
    [⟨10, 1, 1, ⟨2, 0⟩, ⟨3, 1⟩, [⟨2, 0⟩, ⟨3, 1⟩]⟩],
    [], [], [], []⟩, none⟩

/-- The conversion of a file under a configuration, as a relation on
outcomes: either parsing fails fast with its error, or the parsed graph
is pushed through the three stage groups (spec section 7: a conversion
either completes or aborts). -/
inductive ConvertRel (cfg : Config) (file : OsmFile) : Except ParseErr GraphScenario → Prop where
  | parse_failed (e : ParseErr) (h : create_graph file = Except.error e) :
      ConvertRel cfg file (Except.error e)
  | converted (g r : RGraph)
      (hparse : create_graph file = Except.ok g)
      (hrun : (pipelineResult cfg g).1 = r) :
      ConvertRel cfg file (Except.ok ⟨r⟩)

/-- The kernel-computable addition agrees with the standard addition. -/
theorem qadd_eq (a b : ℚ) : qadd a b = a + b :=
  (Rat.add_def' a b).symm

/-- The kernel-computable subtraction agrees with the standard one. -/
theorem qsub_eq (a b : ℚ) : qsub a b = a - b :=
  (Rat.sub_def' a b).symm

/-- The kernel-computable multiplication agrees with the standard one. -/
theorem qmul_eq (a b : ℚ) : qmul a b = a * b := by
  rw [qmul]
  conv_rhs => rw [← Rat.num_divInt_den a, ← Rat.num_divInt_den b, Rat.divInt_mul_divInt']

/-- The kernel-computable division agrees with the standard one. -/
theorem qdiv_eq (a b : ℚ) : qdiv a b = a / b :=
  (Rat.div_def' a b).symm

/-- The kernel-computable order test agrees with the standard order. -/
theorem qltb_eq_decide (a b : ℚ) : qltb a b = decide (a < b) := by
  rw [qltb]
  exact decide_eq_decide.mpr Rat.lt_def.symm

/-- The kernel-computable order test holds exactly when the standard
strict order holds. -/
theorem qltb_iff (a b : ℚ) : qltb a b = true ↔ a < b := by
  simp [qltb_eq_decide]

/-- The kernel-computable list sum agrees with the standard list sum. -/
theorem qsum_eq (l : List ℚ) : qsum l = l.sum := by
  induction l with
  | nil => rfl
  | cons x xs ih => rw [qsum, qadd_eq, ih, List.sum_cons]

/-- The kernel-computable embedding of the naturals agrees with the
standard cast. -/
theorem qofNat_eq (n : ℕ) : qofNat n = (n : ℚ) := rfl

/-- The functional pipeline realizes the conversion relation: for every
file and configuration, the outcome computed by GraphScenario_init is
related to them by ConvertRel. -/
theorem convertRel_total (cfg : Config) (file : OsmFile) :
    ConvertRel cfg file ((GraphScenario_init cfg file).map Prod.fst) := by
  cases hp : file.parsed with
  | error e =>
    have hinit : GraphScenario_init cfg file = Except.error e := by
      simp [GraphScenario_init, step_collection_1, create_graph, hp]
    rw [hinit]
    exact ConvertRel.parse_failed e (by simp [create_graph, hp])
  | ok g =>
    have hinit : (GraphScenario_init cfg file).map Prod.fst =
        Except.ok ⟨(pipelineResult cfg g).1⟩ := by
      simp [GraphScenario_init, step_collection_1, create_graph, hp, pipelineResult, Except.map]
    rw [hinit]
    exact ConvertRel.converted g _ (by simp [create_graph, hp]) rfl

/-- C9: save_as_cr with filename None does not fail and invokes the
exporter with the graph alone, while any non-None filename is forwarded
to the exporter unchanged together with the graph. -/
theorem c9_save_as_cr_none_uses_default_export (s : GraphScenario) :
    save_as_cr s none = ExportCall.toDefault s.graph ∧
    ∀ f : String, save_as_cr s (some f) = ExportCall.withFilename s.graph f :=
  ⟨rfl, fun _ => rfl⟩

/-- C10: after every normal return of save_to_file the interpreter
recursion limit equals the constant 1000, whatever its value before the
call; the limit is 10000 in the state in which the blob is pickled; the
scenario is returned unmodified; and the only file-system change is the
newly written blob. -/
theorem c10_save_to_file_recursion_limit (s : GraphScenario) (filename : String) (w : World) :
    (save_to_file s filename w).2.recursionLimit = 1000 ∧
    (save_to_file_dumpWorld w).recursionLimit = 10000 ∧
    (save_to_file s filename w).1 = s ∧
    (save_to_file s filename w).2.files = (filename, pickle_dump s) :: w.files :=
  ⟨rfl, rfl, rfl, rfl⟩

/-- C7: snapshot persistence round-trips: loading the file just written
by save_to_file returns the saved scenario whole, in particular a
scenario whose graph equals the saved scenario's graph. -/
theorem c7_save_load_roundtrip (s : GraphScenario) (filename : String) (w : World) :
    load_from_file filename (save_to_file s filename w).2 = some s ∧
    (load_from_file filename (save_to_file s filename w).2).map GraphScenario.graph =
      some s.graph := by
  have h : load_from_file filename (save_to_file s filename w).2 = some s := by
    show (findBlob ((filename, pickle_dump s) :: w.files) filename).bind pickle_load = some s
    simp [findBlob, pickle_load, pickle_dump]
  exact ⟨h, by rw [h]; rfl⟩

/-- C6: the pipeline is deterministic: two conversion outcomes of the
same file under the same configuration coincide — the same resulting
graph, or the same failure. -/
theorem c6_convert_deterministic (cfg : Config) (file : OsmFile)
    (r1 r2 : Except ParseErr GraphScenario)
    (h1 : ConvertRel cfg file r1) (h2 : ConvertRel cfg file r2) : r1 = r2 := by
  cases h1 <;> cases h2 <;> simp_all

/-- Witness for C6: the determinism theorem applied to two concrete runs
of the conversion of a concrete file. -/
theorem c6_convert_deterministic_witness :
    (Except.ok ⟨(pipelineResult cfgC6 ⟨emptyGraphData, none⟩).1⟩ :
      Except ParseErr GraphScenario) =
    Except.ok ⟨(pipelineResult cfgC6 ⟨emptyGraphData, none⟩).1⟩ :=
  c6_convert_deterministic cfgC6 fileC6 _ _
    (ConvertRel.converted _ _ rfl rfl) (ConvertRel.converted _ _ rfl rfl)

/-- The centroid of a single point is that point. -/
theorem centroid_singleton (p : Point) : centroid [p] = p := by
  cases p with
  | mk x y =>
    simp only [centroid, List.map_cons, List.map_nil, qsum, qadd_eq, qofNat_eq,
      qdiv_eq, List.length_cons, List.length_nil]
    norm_num

/-- The representative of a singleton cluster is its node. -/
theorem clusterRep_singleton (n : Node) : clusterRep [n] = n := by
  cases n with
  | mk i c => simp only [clusterRep, List.map_cons, List.map_nil, centroid_singleton]

/-- On a node list whose members are pairwise farther apart than the
threshold, proximity clustering yields only singleton clusters. -/
theorem proximityClusters_far (t : ℚ) (ns : List Node)
    (h : ns.Pairwise (fun a b => close t a.coord b.coord = false)) :
    proximityClusters t ns = ns.map (fun n => [n]) := by
  induction ns with
  | nil => rfl
  | cons n ns ih =>
    rw [List.pairwise_cons] at h
    show addNodeToClusters t n (proximityClusters t ns) = _
    rw [ih h.2]
    unfold addNodeToClusters
    rw [List.partition_eq_filter_filter]
    have h1 : (ns.map (fun m => [m])).filter
        (fun c => c.any fun m => close t n.coord m.coord) = [] := by
      rw [List.filter_eq_nil_iff]
      intro c hc
      rcases List.mem_map.mp hc with ⟨m, hm, rfl⟩
      simp [h.1 m hm]
    have h2 : (ns.map (fun m => [m])).filter
        (not ∘ fun c => c.any fun m => close t n.coord m.coord) = ns.map (fun m => [m]) := by
      rw [List.filter_eq_self]
      intro c hc
      rcases List.mem_map.mp hc with ⟨m, hm, rfl⟩
      simp [Function.comp, h.1 m hm]
    simp only [h1, h2, List.map_cons, List.flatten_nil]

/-- On singleton clusters the representative association sends every node
id to itself. -/
theorem repAssoc_singletons (ns : List Node) :
    repAssoc (ns.map fun n => [n]) = ns.map (fun n => (n.nid, n.nid)) := by
  induction ns with
  | nil => rfl
  | cons n ns ih =>
    simp only [repAssoc, List.map_cons, List.map_nil, List.flatten_cons, clusterRep_singleton]
    simp only [repAssoc] at ih
    rw [ih]
    rfl

/-- Looking an id up in the identity association built from a node list
always falls back to the id itself. -/
theorem assocFind_selfMap (ns : List Node) (i : ℕ) :
    (assocFind (ns.map fun n => (n.nid, n.nid)) i).getD i = i := by
  induction ns with
  | nil => rfl
  | cons n ns ih =>
    show (if n.nid = i then some n.nid else assocFind (ns.map fun n => (n.nid, n.nid)) i).getD i = i
    by_cases hni : n.nid = i
    · rw [if_pos hni]; exact hni
    · rw [if_neg hni]; exact ih

/-- A filterMap that keeps every element of a list is the identity. -/
theorem filterMap_id_of {α : Type} (f : α → Option α) (l : List α)
    (h : ∀ a ∈ l, f a = some a) : l.filterMap f = l := by
  induction l with
  | nil => rfl
  | cons a l ih =>
    rw [List.filterMap_cons, h a (List.mem_cons_self a l),
      ih (fun b hb => h b (List.mem_cons_of_mem a hb))]

/-- The merger is a no-op on a graph whose nodes are pairwise farther
apart than the threshold: all clusters are singletons, every
representative is the original node, and no edge is re-pointed or
deleted. -/
theorem merge_close_intersections_noop (t : ℚ) (g : GraphData)
    (h : g.nodes.Pairwise (fun a b => close t a.coord b.coord = false)) :
    merge_close_intersections t g = g := by
  have hfind : ∀ i, (assocFind (repAssoc (g.nodes.map fun n => [n])) i).getD i = i := by
    intro i
    rw [repAssoc_singletons]
    exact assocFind_selfMap g.nodes i
  simp only [merge_close_intersections, proximityClusters_far t g.nodes h]
  have hnodes : (g.nodes.map fun n => [n]).map clusterRep = g.nodes := by
    rw [List.map_map]
    have := List.map_congr_left (l := g.nodes)
      (f := clusterRep ∘ fun n => [n]) (g := id) (fun a _ => clusterRep_singleton a)
    rw [this, List.map_id]
  have hedges : g.edges.filterMap (fun e =>
      if (assocFind (repAssoc (g.nodes.map fun n => [n])) e.n1).getD e.n1 =
          (assocFind (repAssoc (g.nodes.map fun n => [n])) e.n2).getD e.n2 ∧ e.n1 ≠ e.n2
      then none
      else some { e with
        n1 := (assocFind (repAssoc (g.nodes.map fun n => [n])) e.n1).getD e.n1,
        n2 := (assocFind (repAssoc (g.nodes.map fun n => [n])) e.n2).getD e.n2 }) = g.edges := by
    apply filterMap_id_of
    intro e _
    rw [hfind e.n1, hfind e.n2, if_neg (fun hc => hc.2 hc.1)]
  rw [hnodes, hedges]

/-- C3 counterexample: intersection merging is not idempotent.  On the
concrete graph gC3 with threshold 40, one application leaves two nodes
(the centroids of the two proximity clusters) that are closer than the
threshold, so a second application merges again and yields a different
graph. -/
theorem c3_merge_not_idempotent_counterexample :
    merge_close_intersections 40 (merge_close_intersections 40 gC3) ≠
      merge_close_intersections 40 gC3 := by decide

/-- C3 (amended): re-running the merger with the same threshold is a
no-op provided the once-merged graph has no two nodes within the
threshold of each other; without that proviso a second application can
merge further, because centroids of distinct clusters can fall within the
threshold (theorem c3_merge_not_idempotent_counterexample). -/
theorem c3_merge_idempotent_on_separated (t : ℚ) (g : GraphData)
    (h : (merge_close_intersections t g).nodes.Pairwise
      (fun a b => close t a.coord b.coord = false)) :
    merge_close_intersections t (merge_close_intersections t g) =
      merge_close_intersections t g :=
  merge_close_intersections_noop t _ h

/-- Witness for the amended C3: on the concrete two-node graph gC3W with
threshold 1, the merged graph is threshold-separated and a second merge
changes nothing. -/
theorem c3_merge_idempotent_on_separated_witness :
    merge_close_intersections 1 (merge_close_intersections 1 gC3W) =
      merge_close_intersections 1 gC3W :=
  c3_merge_idempotent_on_separated 1 gC3W (by decide)

/-- The first stage group decomposes into independent per-layer
computations, and its trace lists exactly the invocations of
converter.py lines 27 to 40. -/
theorem step_collection_1_graph_eq (cfg : Config) (rg : RGraph) :
    step_collection_1_graph cfg rg =
      (⟨step1Main cfg rg.main, rg.sublayer.map (step1Sub cfg)⟩,
       (if cfg.MAKE_CONTIGUOUS then [Event.make_contiguous Layer.primary] else []) ++
       [Event.merge_close_intersections Layer.primary (mergeThreshold cfg Layer.primary)] ++
       (if rg.sublayer.isSome then
         [Event.merge_close_intersections Layer.sublayer (mergeThreshold cfg Layer.sublayer)]
        else []) ++
       [Event.link_edges Layer.primary]) := by
  cases rg with
  | mk main sub =>
    cases sub <;> cases hM : cfg.MAKE_CONTIGUOUS <;>
      simp [step_collection_1_graph, step1Main, step1Sub, mapMain, subApply, hM]

/-- The second stage group decomposes into independent per-layer
computations, and its trace lists exactly the invocations of
converter.py lines 43 to 79: the primary graph's short-edge candidates
are never deleted, the sublayer's are deleted exactly when
DELETE_SHORT_EDGES is set. -/
theorem step_collection_2_eq (cfg : Config) (rg : RGraph) :
    step_collection_2 cfg rg =
      (⟨step2Main cfg rg.main, rg.sublayer.map (step2Sub cfg)⟩,
       [Event.link_graph Layer.primary] ++
       (if rg.sublayer.isSome then [Event.link_graph Layer.sublayer] else []) ++
       [Event.interpolate Layer.primary cfg.INTERPOLATION_DISTANCE_INTERNAL,
        Event.offset_graph Layer.primary] ++
       (if rg.sublayer.isSome then [Event.offset_graph Layer.sublayer] else []) ++
       [Event.crop_waypoints_at_intersections Layer.primary cfg.INTERSECTION_DISTANCE] ++
       (match rg.sublayer with
        | some s =>
          [Event.crop_waypoints_at_intersections Layer.sublayer
            cfg.INTERSECTION_DISTANCE_SUBLAYER] ++
          (if cfg.DELETE_SHORT_EDGES then
            [Event.delete_edges Layer.sublayer (step2SubCropped cfg s).2] else [])
        | none => []) ++
       [Event.add_mapillary_signs Layer.primary, Event.apply_traffic_signs Layer.primary,
        Event.apply_traffic_lights Layer.primary, Event.create_lane_waypoints Layer.primary]) := by
  cases rg with
  | mk main sub =>
    cases sub <;> cases hD : cfg.DELETE_SHORT_EDGES <;>
      simp [step_collection_2, step2Main, step2Sub, step2SubCropped, mapMain, subApply, hD]

/-- The third stage group decomposes into independent per-layer
computations, and its trace lists exactly the invocations of
converter.py lines 82 to 103. -/
theorem step_collection_3_eq (cfg : Config) (rg : RGraph) :
    step_collection_3 cfg rg =
      (⟨step3Main cfg rg.main, rg.sublayer.map (step3Sub cfg)⟩,
       [Event.create_lane_link_segments Layer.primary, Event.cluster_segments Layer.primary] ++
       (if rg.sublayer.isSome then [Event.cluster_segments Layer.sublayer] else []) ++
       [Event.create_lane_bounds Layer.primary
         (qdiv cfg.INTERPOLATION_DISTANCE_INTERNAL cfg.INTERPOLATION_DISTANCE)] ++
       (if cfg.DELETE_INVALID_LANES then [Event.delete_invalid_lanes Layer.primary] else []) ++
       (if rg.sublayer.isSome ∧ cfg.DELETE_INVALID_LANES then
         [Event.delete_invalid_lanes Layer.sublayer] else []) ++
       [Event.correct_start_end_points Layer.primary]) := by
  cases rg with
  | mk main sub =>
    cases sub <;> cases hD : cfg.DELETE_INVALID_LANES <;>
      simp [step_collection_3, step3Main, step3Sub, mapMain, subApply, hD]

/-- The whole pipeline acts on the two layers independently: the primary
result is a function of the primary input alone and the sublayer result a
function of the sublayer input alone. -/
theorem pipelineResult_graph (cfg : Config) (rg : RGraph) :
    (pipelineResult cfg rg).1 =
      ⟨mainPipeline cfg rg.main, rg.sublayer.map (sublayerPipeline cfg)⟩ := by
  show (step_collection_3 cfg (step_collection_2 cfg (step_collection_1_graph cfg rg).1).1).1 = _
  rw [step_collection_1_graph_eq, step_collection_2_eq, step_collection_3_eq]
  cases rg.sublayer <;> simp [mainPipeline, sublayerPipeline]

/-- C2 counterexample: with DELETE_SHORT_EDGES set, a primary-graph edge
flagged by the Cropper as a deletion candidate is nevertheless still
present after step_collection_2 (the primary deletion is commented out in
converter.py lines 63 to 65). -/
theorem c2_primary_candidates_not_deleted_counterexample :
    cfgC2.DELETE_SHORT_EDGES = true ∧
    5 ∈ (crop_waypoints_at_intersections cfgC2.INTERSECTION_DISTANCE
      (offset_graph (interpolate cfgC2.INTERPOLATION_DISTANCE_INTERNAL
        (link_graph gC2.main)))).2 ∧
    5 ∈ (step_collection_2 cfgC2 gC2).1.main.edges.map Edge.eid := by
  refine ⟨rfl, ?_, ?_⟩ <;> decide

/-- C2 (amended): DELETE_SHORT_EDGES acts on the sublayer only.  No run
of step_collection_2 ever deletes primary-graph candidates — a delete
invocation on the primary layer never occurs and the primary layer's
edge list is exactly the cropped edge list — while a sublayer delete
invocation occurs exactly when the flag is set and a sublayer exists;
with the flag unset nothing is deleted. -/
theorem c2_short_edge_deletion_sublayer_only (cfg : Config) (rg : RGraph) :
    (∀ es : List ℕ, Event.delete_edges Layer.primary es ∉ (step_collection_2 cfg rg).2) ∧
    ((∃ es, Event.delete_edges Layer.sublayer es ∈ (step_collection_2 cfg rg).2) ↔
      cfg.DELETE_SHORT_EDGES = true ∧ rg.sublayer.isSome = true) ∧
    (step_collection_2 cfg rg).1.main.edges =
      ((crop_waypoints_at_intersections cfg.INTERSECTION_DISTANCE
        (offset_graph (interpolate cfg.INTERPOLATION_DISTANCE_INTERNAL
          (link_graph rg.main)))).1).edges := by
  refine ⟨?_, ?_, ?_⟩
  · intro es hmem
    rw [step_collection_2_eq] at hmem
    rcases hs : rg.sublayer with _ | s <;> rw [hs] at hmem <;>
      cases hD : cfg.DELETE_SHORT_EDGES <;> rw [hD] at hmem <;> simp at hmem
  · rw [step_collection_2_eq]
    rcases hs : rg.sublayer with _ | s <;> cases hD : cfg.DELETE_SHORT_EDGES <;>
      simp [hs, hD]
  · rw [step_collection_2_eq]
    rfl

/-- C5 (amended): no configuration validation is performed and nothing is
rejected before the pipeline: whenever the file parses, the first stage
group is entered and runs its operations under every configuration
(non-positive thresholds and spacings included), and the second stage
group then invokes the Cropper with the configured threshold passed
through unvalidated.  (Only converter.py line 90, inside the third stage
group and after these mutations, can fail, by dividing by a zero
INTERPOLATION_DISTANCE; even then nothing was rejected before the stages
ran.) -/
theorem c5_no_config_validation (cfg : Config) (file : OsmFile) (g : RGraph)
    (h : create_graph file = Except.ok g) :
    step_collection_1 cfg file = Except.ok (step_collection_1_graph cfg g) ∧
    Event.link_edges Layer.primary ∈ (step_collection_1_graph cfg g).2 ∧
    Event.crop_waypoints_at_intersections Layer.primary cfg.INTERSECTION_DISTANCE ∈
      (step_collection_2 cfg (step_collection_1_graph cfg g).1).2 := by
  refine ⟨by simp [step_collection_1, h], ?_, ?_⟩
  · rw [step_collection_1_graph_eq]
    simp
  · rw [step_collection_2_eq]
    simp

/-- Witness for C5 (amended): under the all-negative configuration cfgC5
the conversion of a concrete file is not rejected: stage 1 runs, and
stage 2 invokes the Cropper with the negative threshold. -/
theorem c5_no_config_validation_witness :
    step_collection_1 cfgC5 fileC6 =
      Except.ok (step_collection_1_graph cfgC5 ⟨emptyGraphData, none⟩) ∧
    Event.link_edges Layer.primary ∈
      (step_collection_1_graph cfgC5 ⟨emptyGraphData, none⟩).2 ∧
    Event.crop_waypoints_at_intersections Layer.primary cfgC5.INTERSECTION_DISTANCE ∈
      (step_collection_2 cfgC5 (step_collection_1_graph cfgC5 ⟨emptyGraphData, none⟩).1).2 :=
  c5_no_config_validation cfgC5 fileC6 ⟨emptyGraphData, none⟩ rfl

/-- C5 counterexample: with every threshold and spacing negative, the
third stage group still mutates a concrete graph (the conversion is not
rejected before the pipeline and its stages do modify the graph). -/
theorem c5_stage_mutates_under_nonpositive_config_counterexample :
    cfgC5.INTERSECTION_DISTANCE < 0 ∧ cfgC5.INTERPOLATION_DISTANCE < 0 ∧
    (step_collection_3 cfgC5 gC5).1 ≠ gC5 :=
  ⟨by norm_num [cfgC5], by norm_num [cfgC5], by decide⟩

/-- C4: on a SublayeredGraph the pipeline invokes the Intersection Merger
exactly once per layer and the Cropper exactly once per layer, the
primary layer with INTERSECTION_DISTANCE and the sublayer with
INTERSECTION_DISTANCE_SUBLAYER in both cases; and no invocation mixes the
layers: the primary result is a function of the primary input alone and
the sublayer result of the sublayer input alone, so no merge can combine
a primary node with a sublayer node. -/
theorem c4_merger_cropper_once_per_layer (cfg : Config) (rg : RGraph) (s : GraphData)
    (h : rg.sublayer = some s) :
    mergeEvents (pipelineResult cfg rg).2 =
      [(Layer.primary, cfg.INTERSECTION_DISTANCE),
       (Layer.sublayer, cfg.INTERSECTION_DISTANCE_SUBLAYER)] ∧
    cropEvents (pipelineResult cfg rg).2 =
      [(Layer.primary, cfg.INTERSECTION_DISTANCE),
       (Layer.sublayer, cfg.INTERSECTION_DISTANCE_SUBLAYER)] ∧
    (pipelineResult cfg rg).1.main = mainPipeline cfg rg.main ∧
    (pipelineResult cfg rg).1.sublayer = some (sublayerPipeline cfg s) := by
  obtain ⟨mc, dse, dil, i1, i2, i3, i4⟩ := cfg
  refine ⟨?_, ?_, ?_, ?_⟩
  · simp only [pipelineResult, step_collection_1_graph_eq, step_collection_2_eq,
      step_collection_3_eq, h]
    cases mc <;> cases dse <;> cases dil <;>
      simp [mergeEvents, mergeThreshold, List.filterMap_append]
  · simp only [pipelineResult, step_collection_1_graph_eq, step_collection_2_eq,
      step_collection_3_eq, h]
    cases mc <;> cases dse <;> cases dil <;>
      simp [cropEvents, mergeThreshold, List.filterMap_append]
  · rw [pipelineResult_graph]
  · rw [pipelineResult_graph, h]
    rfl

/-- Witness for C4: the theorem applied to the concrete sublayered graph
gC8 under the concrete configuration cfgC6. -/
theorem c4_merger_cropper_once_per_layer_witness :
    mergeEvents (pipelineResult cfgC6 gC8).2 =
      [(Layer.primary, cfgC6.INTERSECTION_DISTANCE),
       (Layer.sublayer, cfgC6.INTERSECTION_DISTANCE_SUBLAYER)] ∧
    cropEvents (pipelineResult cfgC6 gC8).2 =
      [(Layer.primary, cfgC6.INTERSECTION_DISTANCE),
       (Layer.sublayer, cfgC6.INTERSECTION_DISTANCE_SUBLAYER)] ∧
    (pipelineResult cfgC6 gC8).1.main = mainPipeline cfgC6 gC8.main ∧
    (pipelineResult cfgC6 gC8).1.sublayer = some (sublayerPipeline cfgC6 emptyGraphData) :=
  c4_merger_cropper_once_per_layer cfgC6 gC8 emptyGraphData rfl

/-- C8: within the three stage groups, the sublayer is only ever passed
to intersection merging, lane linking, offsetting, cropping, short-edge
deletion, segment clustering and invalid-lane deletion; every event of
any pipeline trace whose layer is the sublayer is one of these
operations, so link_edges, interpolate, the annotation appliers,
create_lane_waypoints, create_lane_link_segments, create_lane_bounds and
correct_start_end_points run on the primary graph only. -/
theorem c8_sublayer_receives_only_allowed_ops (cfg : Config) (rg : RGraph)
    (ev : Event) (hmem : ev ∈ (pipelineResult cfg rg).2)
    (hl : eventLayer ev = Layer.sublayer) :
    sublayerAllowed ev = true := by
  obtain ⟨mc, dse, dil, i1, i2, i3, i4⟩ := cfg
  simp only [pipelineResult, step_collection_1_graph_eq, step_collection_2_eq,
    step_collection_3_eq] at hmem
  rcases hs : rg.sublayer with _ | s <;> rw [hs] at hmem <;>
    cases mc <;> cases dse <;> cases dil <;>
    simp at hmem <;>
    repeat' rcases hmem with rfl | hmem
  all_goals simp_all [eventLayer, sublayerAllowed]

/-- Witness for C8: a concrete sublayer event of a concrete pipeline run,
checked to be one of the allowed sublayer operations. -/
theorem c8_sublayer_receives_only_allowed_ops_witness :
    sublayerAllowed (Event.cluster_segments Layer.sublayer) = true :=
  c8_sublayer_receives_only_allowed_ops cfgC6 gC8
    (Event.cluster_segments Layer.sublayer) (by decide) rfl

/-- The start/end point correction changes no node. -/
theorem correct_start_end_points_nodes (g : GraphData) :
    (correct_start_end_points g).nodes = g.nodes := rfl

/-- After the start/end point correction, every lane or segment endpoint
nominally located at a node id that resolves to a node coordinate equals
that coordinate. -/
theorem endpointsAt_correct_eq (g : GraphData) (i : ℕ) (c : Point)
    (hc : nodeCoord g i = some c) :
    ∀ p ∈ endpointsAt (correct_start_end_points g) i, p = c := by
  intro p hp
  have hsnap : ∀ x, snapToNode g i x = c := by
    intro x
    rw [snapToNode, hc]
  simp only [endpointsAt, correct_start_end_points, List.mem_append, or_assoc] at hp
  rcases hp with hp | hp | hp | hp <;>
    rw [List.filterMap_map] at hp <;>
    rcases List.mem_filterMap.mp hp with ⟨a, _, hfa⟩ <;>
    simp only [Function.comp] at hfa <;>
    split at hfa
  all_goals
    first
      | exact Option.noConfusion hfa
      | (injection hfa with hpa; simp_all [hsnap])

/-- C1: after step_collection_3, whose final repair step is
correct_start_end_points, all lane and segment endpoints nominally
located at any node of the (primary) graph have identical coordinates:
any two of them are equal, so no residual gap remains. -/
theorem c1_boundary_consistency (cfg : Config) (rg : RGraph) (n : Node)
    (hn : n ∈ (step_collection_3 cfg rg).1.main.nodes) (p q : Point)
    (hp : p ∈ endpointsAt ((step_collection_3 cfg rg).1.main) n.nid)
    (hq : q ∈ endpointsAt ((step_collection_3 cfg rg).1.main) n.nid) : p = q := by
  have hmain : (step_collection_3 cfg rg).1.main = step3Main cfg rg.main := by
    rw [step_collection_3_eq]
  rw [hmain] at hn hp hq
  obtain ⟨G, hG⟩ : ∃ G, step3Main cfg rg.main = correct_start_end_points G := ⟨_, rfl⟩
  rw [hG] at hn hp hq
  rw [correct_start_end_points_nodes] at hn
  have hfind : (G.nodes.find? (fun m => decide (m.nid = n.nid))).isSome :=
    List.find?_isSome.mpr ⟨n, hn, by simp⟩
  obtain ⟨m, hm⟩ := Option.isSome_iff_exists.mp hfind
  have hc : nodeCoord G n.nid = some m.coord := by
    rw [nodeCoord, hm]
    rfl
  exact (endpointsAt_correct_eq G n.nid m.coord hc p hp).trans
    (endpointsAt_correct_eq G n.nid m.coord hc q hq).symm

/-- Witness for C1: on the concrete graph gC1, after step_collection_3
the endpoints nominally at node 1 (two lane endpoints and two segment
endpoints) are checked to be members and pairwise equal through the
theorem. -/
theorem c1_boundary_consistency_witness :
    Point.mk 0 0 = Point.mk 0 0 :=
  c1_boundary_consistency cfgC6 gC1 ⟨1, ⟨0, 0⟩⟩ (by decide)
    ⟨0, 0⟩ ⟨0, 0⟩ (by decide) (by decide)

end CSDRail
